import Mathlib

/-
  Verification development for the SenseBridge device-orchestration layer.

  Shallow embedding of:
    - src/hardware/wearable.py        (WearableDevice)
    - src/speech/speech_to_text.py    (SpeechToText)
    - src/utils/hardware_detection.py (HardwareDetector)
    - src/main.py                     (SenseBridge orchestrator)

  Python objects become Lean structures; each method becomes a pure state
  transition.  External effects that can fail (socket sends, microphone
  opens, imports, file reads) are passed in as explicit oracle values, so a
  theorem quantifying over the oracle covers every environment behaviour.
  "Does not raise to the caller" is modelled by the transition being a total
  Lean function (any internal exception path is an explicit branch of the
  definition, mirroring the try/except structure of the source).
  Ghost fields (socketsConstructed, socketsClosed, sentData, micCloses)
  count resource events; they change exactly where the source constructs,
  closes, or writes to a handle.
-/

namespace SenseBridge

/-! ## Wearable device (src/hardware/wearable.py) -/

/-- The wire encoding produced by `json.dumps({"cmd": command, "params": {}})`
in `WearableDevice.send_command` (for commands without JSON-escaped
characters; `params` defaults to the empty dict as in the source). -/
def jsonDumpsCmd (command : String) : String :=
  "\x7b\"cmd\": \"" ++ command ++ "\", \"params\": \x7b\x7d\x7d"

/-- The hello frame body sent during `WearableDevice._connect`:
`json.dumps({"cmd": "hello", "params": {"name": "SenseBridge"}})`. -/
def helloFrame : String :=
  "\x7b\"cmd\": \"hello\", \"params\": \x7b\"name\": \"SenseBridge\"\x7d\x7d"

/-- State of a `WearableDevice` instance.  `bluetoothAvailable` is the truth
value of the module-level `bluetooth` object (real or mock module present:
`true`; both imports failed, `bluetooth = None`: `false`).  `socket` holds
the id of the currently owned `BluetoothSocket`, `connection_thread` whether
the maintenance thread was spawned.  `socketsConstructed`, `socketsClosed`
and `sentData` are ghost fields recording constructions of
`bluetooth.BluetoothSocket`, calls to `socket.close()` and the byte strings
passed to `socket.send`. -/
structure WearableDevice where
  bluetoothAvailable : Bool
  wearable_mac : String
  connected : Bool
  socket : Option Nat
  connection_thread : Bool
  running : Bool
  socketsConstructed : Nat
  socketsClosed : Nat
  sentData : List String
deriving DecidableEq, Repr

/-- `WearableDevice.__init__`: connection status and thread state cleared;
the MAC comes from configuration (`device_config["bluetooth"]["wearable_mac"]`,
default `""`). -/
def WearableDevice.init (bt : Bool) (mac : String) : WearableDevice :=
  { bluetoothAvailable := bt
    wearable_mac := mac
    connected := false
    socket := none
    connection_thread := false
    running := false
    socketsConstructed := 0
    socketsClosed := 0
    sentData := [] }

/-- `WearableDevice.start`: no-op when already running; when the bluetooth
module is unavailable it only sets `running` (simulation mode); otherwise it
sets `running` and spawns the connection thread. -/
def WearableDevice.start (d : WearableDevice) : WearableDevice :=
  if d.running then d
  else if !d.bluetoothAvailable then { d with running := true }
  else { d with running := true, connection_thread := true }

/-- `WearableDevice.stop`: no-op when not running; otherwise clears
`running`, closes and drops the socket if one is held (close errors are
swallowed by the source's bare `except`), and joins the thread with a
bounded timeout (no state effect). -/
def WearableDevice.stop (d : WearableDevice) : WearableDevice :=
  if !d.running then d
  else if d.socket.isSome then
    { d with running := false, socket := none
             socketsClosed := d.socketsClosed + 1 }
  else { d with running := false }

/-- `WearableDevice.send_command`: returns `false` at once unless
`self.connected and self.socket`; otherwise writes the newline-terminated
JSON frame.  `sendOk` is the oracle for `socket.send` succeeding; on failure
the `except` branch clears `connected` and returns `false`.  The function is
total: no exception reaches the caller. -/
def WearableDevice.send_command (d : WearableDevice) (sendOk : Bool)
    (command : String) : Bool × WearableDevice :=
  if !d.connected || d.socket.isNone then (false, d)
  else if sendOk then
    (true, { d with sentData := d.sentData ++ [jsonDumpsCmd command ++ "\n"] })
  else
    (false, { d with connected := false })

/-- `WearableDevice._connect`: bails out before any socket work when the
configured MAC is empty (`if not self.wearable_mac`).  Otherwise constructs
a `BluetoothSocket`; `connectOk` is the oracle for
connect/settimeout/hello-send succeeding (the best-effort `recv` is wrapped
in its own try/except and has no state effect).  The exception branch closes
and drops the socket and clears `connected`. -/
def WearableDevice.connectStep (d : WearableDevice) (connectOk : Bool) :
    Bool × WearableDevice :=
  if d.wearable_mac = "" then (false, d)
  else
    let d1 : WearableDevice :=
      { d with socket := some d.socketsConstructed
               socketsConstructed := d.socketsConstructed + 1 }
    if connectOk then
      (true, { d1 with sentData := d1.sentData ++ [helloFrame ++ "\n"]
                       connected := true })
    else
      (false, { d1 with socket := none, connected := false
                        socketsClosed := d1.socketsClosed + 1 })

/-- One iteration of `WearableDevice._connection_loop`: the body runs only
on the spawned thread and only while `running`; it attempts `_connect` when
not connected, then sleeps. -/
def WearableDevice.loopStep (d : WearableDevice) (connectOk : Bool) :
    WearableDevice :=
  if d.connection_thread && d.running then
    if !d.connected then (d.connectStep connectOk).2 else d
  else d

/-- Events that can act on a started `WearableDevice`: a connection-loop
iteration, a `send_command` call, or a `stop` call. -/
inductive WEvent where
  | loopIter (connectOk : Bool)
  | send (sendOk : Bool) (command : String)
  | stopCall
deriving DecidableEq, Repr

/-- Apply one event to the device state. -/
def WearableDevice.step (d : WearableDevice) : WEvent → WearableDevice
  | .loopIter ok => d.loopStep ok
  | .send ok c => (d.send_command ok c).2
  | .stopCall => d.stop

/-- Run a sequence of events. -/
def WearableDevice.run (d : WearableDevice) (es : List WEvent) :
    WearableDevice :=
  es.foldl WearableDevice.step d

/-- Invariant for C10: empty MAC, no socket ever constructed, never
connected. -/
def noTransport (d : WearableDevice) : Prop :=
  d.wearable_mac = "" ∧ d.socketsConstructed = 0 ∧ d.connected = false ∧
    d.socket = none

/-- Invariant for C1: bluetooth module absent, so no thread, no socket,
never connected. -/
def simulatedIdle (d : WearableDevice) : Prop :=
  d.connection_thread = false ∧ d.socketsConstructed = 0 ∧
    d.connected = false ∧ d.socket = none

/-! ## Speech to text (src/speech/speech_to_text.py) -/

/-- Kind of background thread spawned by `SpeechToText.start`. -/
inductive ThreadKind where
  | simulationThread
  | listenThread
deriving DecidableEq, Repr

/-- State of a `SpeechToText` instance.  `sr_available` is whether the
`speech_recognition` import succeeded, `enabled` the
`speech_to_text.enabled` user preference, `in_simulation` the simulation
flag detected from `sys.argv`.  `listen_thread` records the spawned thread
(the source never clears the field; `stop` only joins it).  `mic_source`
is whether an input-device handle is currently held, `micCloses` a ghost
count of `mic_source.close()` calls. -/
structure SpeechToText where
  sr_available : Bool
  enabled : Bool
  in_simulation : Bool
  running : Bool
  listen_thread : Option ThreadKind
  mic_source : Bool
  micCloses : Nat
deriving DecidableEq, Repr

/-- `SpeechToText.__init__`. -/
def SpeechToText.init (srAvail enabled inSim : Bool) : SpeechToText :=
  { sr_available := srAvail
    enabled := enabled
    in_simulation := inSim
    running := false
    listen_thread := none
    mic_source := false
    micCloses := 0 }

/-- `SpeechToText.start`: returns at once when already running.  Otherwise
sets `running := true` first, then: simulation mode spawns the simulation
thread; if the recognition library is unavailable, or speech is disabled in
preferences, it returns with no thread (leaving `running` set); otherwise
the try block adjusts for ambient noise and spawns the listen thread, and
the except branch (`adjustOk = false`) resets `running`. -/
def SpeechToText.start (s : SpeechToText) (adjustOk : Bool) : SpeechToText :=
  if s.running then s
  else
    let s1 : SpeechToText := { s with running := true }
    if s1.in_simulation then
      { s1 with listen_thread := some .simulationThread }
    else if !s1.sr_available then s1
    else if !s1.enabled then s1
    else if adjustOk then { s1 with listen_thread := some .listenThread }
    else { s1 with running := false }

/-- `SpeechToText.stop`: no-op when not running; otherwise clears `running`,
joins the thread with a bounded timeout (the field is not cleared), and
closes and drops the input-device handle if held. -/
def SpeechToText.stop (s : SpeechToText) : SpeechToText :=
  if !s.running then s
  else if s.mic_source then
    { s with running := false, mic_source := false
             micCloses := s.micCloses + 1 }
  else { s with running := false }

/-- The hard-coded microphone priority list of
`SpeechToText._listen_loop`. -/
def mic_indices_to_try : List Nat := [13, 14, 15, 16, 5, 4, 1, 0]

/-- The probe half of `_listen_loop` over an arbitrary candidate list:
each candidate is attempted in order (`opens i` is the oracle for
`sr.Microphone(device_index=i)` opening and calibrating successfully); on
the first success the loop commits to that device, runs recognition there
until `running` clears, and then returns without touching any further
candidate.  Returns the list of indices actually probed and the committed
device, if any. -/
def probeCandidates (opens : Nat → Bool) : List Nat → List Nat × Option Nat
  | [] => ([], none)
  | i :: rest =>
    if opens i then ([i], some i)
    else
      let r := probeCandidates opens rest
      (i :: r.1, r.2)

/-- Indices probed by `_listen_loop` for a given open oracle. -/
def probedIndices (opens : Nat → Bool) : List Nat :=
  (probeCandidates opens mic_indices_to_try).1

/-- Device committed to by `_listen_loop`, if any. -/
def committedMic (opens : Nat → Bool) : Option Nat :=
  (probeCandidates opens mic_indices_to_try).2

/-- The probing order as the spec sentence of C2 words it: the priority
list first filtered by the number of available devices, then probed in
order until the first success. -/
def probedIndicesSpec (numDevices : Nat) (opens : Nat → Bool) : List Nat :=
  (probeCandidates opens
    (mic_indices_to_try.filter (fun i => decide (i < numDevices)))).1

/-- The sample-phrase list of `SpeechToText._simulation_loop`. -/
def test_phrases : List String :=
  ["Help me", "What was that noise", "Turn on the lights", "Call for help"]

/-- `max_recognitions` in `_simulation_loop`. -/
def max_recognitions : Nat := 5

/-- The phrase emitted for a given recognition count:
`test_phrases[recognitions % len(test_phrases)]`. -/
def phraseAt (recognitions : Nat) : String :=
  test_phrases.getD (recognitions % test_phrases.length) ""

/-- `SpeechToText._simulation_loop` with `running` held true.  Each entry
of `cbOks` is one iteration of the first while loop (one sleep interval):
the iteration pushes `test_phrases[recognitions % 4]` to the queue, then
invokes the callback; the entry is the oracle for that callback invocation
returning normally.  On success `recognitions += 1` runs; a raising
callback lands in the `except Exception` branch (log, extra sleep), which
leaves `recognitions` unincremented, so the next iteration pushes the same
phrase again.  Once `recognitions` reaches `max_recognitions` the loop
exits into the idle loop, which emits nothing.  Returns the queue pushes
in order. -/
def simulationLoop : List Bool → Nat → List String
  | [], _ => []
  | cbOk :: rest, recognitions =>
    if recognitions < max_recognitions then
      phraseAt recognitions ::
        simulationLoop rest (if cbOk then recognitions + 1 else recognitions)
    else []

/-! ## Hardware detection (src/utils/hardware_detection.py) -/

/-- Outcome of a Python `import` statement: success, `ImportError`, or any
other exception (e.g. the `RuntimeError` that `RPi.GPIO` raises off-Pi). -/
inductive ImportResult where
  | ok
  | importError
  | otherError
deriving DecidableEq, Repr

/-- Environment oracle for `HardwareDetector`: one field per probe the
constructor performs.  `model_file_read` is the result of
`open('/proc/device-tree/model').read()` when the file exists (the open or
read may raise).  `mock_gpio_find_spec` is `find_spec('src.mock.gpio')`:
`ok b` with `b` = "spec is not None", or an exception.  `pyaudio_probe`
is the input-device count, or an exception anywhere in the pyaudio probe.
`display_env` is the value of `os.environ["DISPLAY"]` (empty when unset or
empty). -/
structure Env where
  platformName : String
  model_file_exists : Bool
  model_file_read : Except Unit String
  rpi_issue_exists : Bool
  rpi_gpio_import : ImportResult
  mock_gpio_find_spec : Except Unit Bool
  pyaudio_probe : Except Unit Nat
  bluetooth_import : ImportResult
  display_env : String
  fb0_exists : Bool
deriving Repr

/-- Substring test standing in for Python's `'pat' in s`. -/
def containsSub (s pat : String) : Bool := (s.splitOn pat).length ≠ 1

/-- `HardwareDetector._detect_raspberry_pi`: reads the device-tree model
file when it exists (an exception from the unguarded `open`/`read`
propagates), returning true on a "Raspberry Pi" match; otherwise checks
`/etc/rpi-issue`. -/
def detect_raspberry_pi (e : Env) : Except Unit Bool :=
  if e.model_file_exists then
    match e.model_file_read with
    | .error u => .error u
    | .ok model =>
      if containsSub model "Raspberry Pi" then .ok true
      else if e.rpi_issue_exists then .ok true
      else .ok false
  else if e.rpi_issue_exists then .ok true
  else .ok false

/-- `HardwareDetector._check_gpio`: `import RPi.GPIO` succeeding gives
true; an `ImportError` falls into the mock-lookup branch, every path of
which returns false (the inner bare `except` swallows `find_spec`
failures); any other exception from the import propagates. -/
def check_gpio (e : Env) : Except Unit Bool :=
  match e.rpi_gpio_import with
  | .ok => .ok true
  | .importError =>
    match e.mock_gpio_find_spec with
    | .ok _ => .ok false
    | .error _ => .ok false
  | .otherError => .error ()

/-- `HardwareDetector._check_audio`: the whole probe is wrapped in a bare
`except`, so it never raises; success returns whether the device count is
positive. -/
def check_audio (e : Env) : Bool :=
  match e.pyaudio_probe with
  | .ok n => decide (0 < n)
  | .error _ => false

/-- `HardwareDetector._check_bluetooth`: only `ImportError` is caught;
any other exception from `import bluetooth` propagates. -/
def check_bluetooth (e : Env) : Except Unit Bool :=
  match e.bluetooth_import with
  | .ok => .ok true
  | .importError => .ok false
  | .otherError => .error ()

/-- `HardwareDetector._check_display`: a non-empty `DISPLAY` wins;
otherwise on a Raspberry Pi the `/dev/fb0` check decides; never raises. -/
def check_display (isRpi : Bool) (e : Env) : Bool :=
  if e.display_env ≠ "" then true
  else if isRpi then e.fb0_exists
  else false

/-- The capability snapshot built by `HardwareDetector.__init__`. -/
structure HardwareDetector where
  platformName : String
  is_raspberry_pi : Bool
  has_gpio : Bool
  has_audio : Bool
  has_bluetooth : Bool
  has_display : Bool
deriving DecidableEq, Repr

/-- `HardwareDetector.__init__`: runs the probes in source order; an
exception from any probe propagates out of the constructor. -/
def HardwareDetector.detect (e : Env) : Except Unit HardwareDetector := do
  let isRpi ← detect_raspberry_pi e
  let gpio ← check_gpio e
  let audio := check_audio e
  let bt ← check_bluetooth e
  let disp := check_display isRpi e
  return { platformName := e.platformName
           is_raspberry_pi := isRpi
           has_gpio := gpio
           has_audio := audio
           has_bluetooth := bt
           has_display := disp }

/-! ## Orchestrator (src/main.py) -/

/-- The workers whose `start`/`stop` the orchestrator sequences.  The
notification manager and the wearable are always constructed;
speech-to-text and sound recognition exist only when `has_audio`; the
simulator only in simulation mode with the simulator UI importable. -/
inductive Worker where
  | notification
  | wearable
  | speech
  | sound
  | simulator
deriving DecidableEq, Repr

/-- Which optional workers were constructed by `_initialize_components`. -/
structure Present where
  hasSpeech : Bool
  hasSound : Bool
  hasSimulator : Bool
deriving DecidableEq, Repr

/-- The order in which `SenseBridge.start` calls the workers' `start`
methods (absent workers are skipped by their `if self.X:` guards). -/
def startOrder (p : Present) : List Worker :=
  [Worker.notification, Worker.wearable] ++
    (if p.hasSpeech then [Worker.speech] else []) ++
    (if p.hasSound then [Worker.sound] else []) ++
    (if p.hasSimulator then [Worker.simulator] else [])

/-- The order in which `SenseBridge.stop` calls the workers' `stop`
methods (`device_controller.cleanup()` follows afterward and is not a
worker stop). -/
def stopOrder (p : Present) : List Worker :=
  (if p.hasSimulator then [Worker.simulator] else []) ++
    (if p.hasSound then [Worker.sound] else []) ++
    (if p.hasSpeech then [Worker.speech] else []) ++
    [Worker.wearable, Worker.notification]

/-- Execution of the single try block in `SenseBridge.start` over a worker
sequence: `raises w` is the oracle for `w.start()` raising.  The first
raising worker transfers control to the except branch, which logs and calls
`self.stop()`; no later worker is started.  Returns the workers whose
`start()` completed and whether the except branch ran. -/
def runStart (raises : Worker → Bool) : List Worker → List Worker × Bool
  | [] => ([], false)
  | w :: rest =>
    if raises w then ([], true)
    else
      let r := runStart raises rest
      (w :: r.1, r.2)

/-- Execution of `SenseBridge.stop` over a worker sequence: the stop calls
are not individually wrapped, so the first `w.stop()` that raises
propagates out of `stop()` and no later worker is stopped.  Returns the
workers whose `stop()` completed and whether an exception escaped. -/
def runStop (raises : Worker → Bool) : List Worker → List Worker × Bool
  | [] => ([], false)
  | w :: rest =>
    if raises w then ([], true)
    else
      let r := runStop raises rest
      (w :: r.1, r.2)

/-- Modelled from the spec: `NotificationManager.stop`,
`SoundRecognition.stop` and `DeviceController.cleanup` — these classes are
not under src (only `main.py` calls them).  Per §5 ("stop() ... must be
safe ... must leave the worker in a state where start() can be called
again") and §8 ("no duplicate resource-release attempt"), each is a guarded
stop that releases its resources once, on a running worker only. -/
structure GuardedWorker where
  running : Bool
  releases : Nat
deriving DecidableEq, Repr

/-- Modelled from the spec: a guarded worker stop (see `GuardedWorker`). -/
def GuardedWorker.stop (g : GuardedWorker) : GuardedWorker :=
  if g.running then { running := false, releases := g.releases + 1 }
  else g

/-- `SimulatorUI` stop-relevant state (src/simulator/simulator_ui.py):
`stop` returns at once when not running, otherwise clears `running` and
quits the root window once (`quits` is a ghost count of `root.quit()`
calls). -/
structure SimulatorUI where
  running : Bool
  hasRoot : Bool
  quits : Nat
deriving DecidableEq, Repr

/-- `SimulatorUI.stop`. -/
def SimulatorUI.stop (u : SimulatorUI) : SimulatorUI :=
  if !u.running then u
  else if u.hasRoot then { u with running := false, quits := u.quits + 1 }
  else { u with running := false }

/-- The component state held by a `SenseBridge` instance, as far as
`stop()` touches it.  The optional components are `none` exactly when
`_initialize_components` left the attribute `None`. -/
structure SenseBridgeState where
  notification_manager : GuardedWorker
  wearable : WearableDevice
  speech_to_text : Option SpeechToText
  sound_recognition : Option GuardedWorker
  simulator : Option SimulatorUI
  device_controller : GuardedWorker
deriving DecidableEq, Repr

/-- `SenseBridge.stop`: stops the components in reverse start order, each
behind an `if self.X:` presence guard, then cleans up the device
controller.  Every component stop is total here (the non-wrapping of
raising stops is analysed separately via `runStop`). -/
def SenseBridgeState.stop (s : SenseBridgeState) : SenseBridgeState :=
  { s with
    simulator := s.simulator.map SimulatorUI.stop
    sound_recognition := s.sound_recognition.map GuardedWorker.stop
    speech_to_text := s.speech_to_text.map SpeechToText.stop
    wearable := s.wearable.stop
    notification_manager := s.notification_manager.stop
    device_controller := s.device_controller.stop }

lemma noTransport_step (d : WearableDevice) (e : WEvent)
    (h : noTransport d) : noTransport (d.step e) := by
  obtain ⟨hm, hn, hc, hs⟩ := h
  cases e with
  | loopIter ok =>
      simp only [WearableDevice.step, WearableDevice.loopStep,
        WearableDevice.connectStep, hm, if_pos, hc]
      split <;> simp [noTransport, hm, hn, hc, hs]
  | send ok c =>
      simp [WearableDevice.step, WearableDevice.send_command, hc,
        noTransport, hm, hn, hs]
  | stopCall =>
      simp only [WearableDevice.step, WearableDevice.stop, hs]
      split <;> simp [noTransport, hm, hn, hc, hs]

lemma noTransport_run (d : WearableDevice) (es : List WEvent)
    (h : noTransport d) : noTransport (d.run es) := by
  induction es generalizing d with
  | nil => exact h
  | cons e es ih => exact ih _ (noTransport_step d e h)

lemma simulatedIdle_step (d : WearableDevice) (e : WEvent)
    (h : simulatedIdle d) : simulatedIdle (d.step e) := by
  obtain ⟨ht, hn, hc, hs⟩ := h
  cases e with
  | loopIter ok =>
      simp [WearableDevice.step, WearableDevice.loopStep, ht,
        simulatedIdle, hn, hc, hs]
  | send ok c =>
      simp [WearableDevice.step, WearableDevice.send_command, hc,
        simulatedIdle, ht, hn, hs]
  | stopCall =>
      simp only [WearableDevice.step, WearableDevice.stop, hs]
      split <;> simp [simulatedIdle, ht, hn, hc, hs]

lemma simulatedIdle_run (d : WearableDevice) (es : List WEvent)
    (h : simulatedIdle d) : simulatedIdle (d.run es) := by
  induction es generalizing d with
  | nil => exact h
  | cons e es ih => exact ih _ (simulatedIdle_step d e h)

/-! ## Claim C1 -/

/-- Counterexample to claim C1: with the bluetooth module unavailable
(simulated mode), `start()` indeed constructs no socket, but `send_command`
returns `false`, not `true` — the guard
`if not self.connected or not self.socket` fires because a simulated
session is never connected. -/
theorem c1_counterexample :
    (((WearableDevice.init false "00:11:22:33:44:55").start).send_command
        true "alert_haptic").1 = false ∧
      ((WearableDevice.init false "00:11:22:33:44:55").start).socketsConstructed
        = 0 :=
  ⟨rfl, rfl⟩

/-- Claim C1 (amended): with the bluetooth module unavailable, `start()`
enters the simulated running state; thereafter, under any sequence of
events, no connection thread is spawned, no transport socket is ever
constructed, and every `send_command` call returns `false` (the command is
rejected, not accepted). -/
theorem c1_amended (mac : String) (es : List WEvent) (sendOk : Bool)
    (command : String) :
    (((WearableDevice.init false mac).start).running = true) ∧
    ((((WearableDevice.init false mac).start).run es).socketsConstructed = 0 ∧
     (((WearableDevice.init false mac).start).run es).connection_thread
        = false ∧
     ((((WearableDevice.init false mac).start).run es).send_command sendOk
        command).1 = false) := by
  have h0 : simulatedIdle ((WearableDevice.init false mac).start) :=
    ⟨rfl, rfl, rfl, rfl⟩
  obtain ⟨ht, hn, hc, hs⟩ :=
    simulatedIdle_run ((WearableDevice.init false mac).start) es h0
  refine ⟨rfl, hn, ht, ?_⟩
  simp [WearableDevice.send_command, hc]

/-! ## Claim C5 -/

/-- Claim C5: `send_command` semantics.  A session that is not connected
(the flag is down, or no transport handle is held — the source's guard
`if not self.connected or not self.socket`) gets `false` back at once with
no state change and no write.  On a connected session holding a socket, a
successful write appends exactly the newline-terminated JSON frame and
returns `true`; a failing write flips `connected` off and returns `false`.
The transition is a total function, so no exception reaches the caller. -/
theorem c5_send_command_semantics (d : WearableDevice) (sendOk : Bool)
    (command : String) :
    (d.connected = false → d.send_command sendOk command = (false, d)) ∧
    (d.socket = none → d.send_command sendOk command = (false, d)) ∧
    (d.connected = true → d.socket.isSome = true → sendOk = true →
      d.send_command sendOk command =
        (true, { d with
                  sentData := d.sentData ++ [jsonDumpsCmd command ++ "\n"] })) ∧
    (d.connected = true → d.socket.isSome = true → sendOk = false →
      d.send_command sendOk command = (false, { d with connected := false })) := by
  refine ⟨?_, ?_, ?_, ?_⟩
  · intro h; simp [WearableDevice.send_command, h]
  · intro h; simp [WearableDevice.send_command, h]
  · intro hc hs hok
    cases hsock : d.socket with
    | none => rw [hsock] at hs; simp at hs
    | some v => simp [WearableDevice.send_command, hc, hsock, hok]
  · intro hc hs hok
    cases hsock : d.socket with
    | none => rw [hsock] at hs; simp at hs
    | some v => simp [WearableDevice.send_command, hc, hsock, hok]

/-- A connected wearable session holding a transport handle, used to
instantiate `c5_send_command_semantics`. -/
def connectedSample : WearableDevice :=
  { bluetoothAvailable := true
    wearable_mac := "00:11:22:33:44:55"
    connected := true
    socket := some 0
    connection_thread := true
    running := true
    socketsConstructed := 1
    socketsClosed := 0
    sentData := [helloFrame ++ "\n"] }

/-- Witness for C5 at a concrete connected state and a failing write. -/
theorem c5_witness :
    connectedSample.send_command false "alert_haptic" =
      (false, { connectedSample with connected := false }) :=
  (c5_send_command_semantics connectedSample false "alert_haptic").2.2.2
    rfl rfl rfl

/-! ## Claim C10 -/

/-- Claim C10: with an empty configured MAC and bluetooth available, the
started device never constructs a transport socket, never becomes
connected, and every `send_command` returns `false`, in every state
reachable by connection-loop iterations, sends and stops —
`_connect` bails out on `if not self.wearable_mac` before any socket
work. -/
theorem c10_empty_mac_never_connects (es : List WEvent) (sendOk : Bool)
    (command : String) :
    ((((WearableDevice.init true "").start).run es).socketsConstructed = 0) ∧
    ((((WearableDevice.init true "").start).run es).connected = false) ∧
    ((((WearableDevice.init true "").start).run es).socket = none) ∧
    (((((WearableDevice.init true "").start).run es).send_command sendOk
        command).1 = false) := by
  have h0 : noTransport ((WearableDevice.init true "").start) :=
    ⟨rfl, rfl, rfl, rfl⟩
  obtain ⟨hm, hn, hc, hs⟩ :=
    noTransport_run ((WearableDevice.init true "").start) es h0
  refine ⟨hn, hc, hs, ?_⟩
  simp [WearableDevice.send_command, hc]

/-! ## Claim C2 -/

lemma probeCandidates_eq (opens : Nat → Bool) (l : List Nat) :
    probeCandidates opens l =
      (l.takeWhile (fun i => !opens i) ++ (l.find? opens).toList,
       l.find? opens) := by
  induction l with
  | nil => rfl
  | cons i rest ih =>
    by_cases h : opens i
    · simp [probeCandidates, h, List.takeWhile_cons, List.find?_cons]
    · simp [probeCandidates, h, List.takeWhile_cons, List.find?_cons, ih]

/-- Counterexample to claim C2: the code does not filter the priority list
by the number of available devices.  With 2 available devices and no
candidate opening, the loop still probes index 13 first (the unfiltered
list), whereas the claim's filtered order would probe only `[1, 0]`. -/
theorem c2_counterexample :
    probedIndices (fun _ => false) ≠ probedIndicesSpec 2 (fun _ => false) := by
  decide

/-- Claim C2 (amended): the loop probes candidates in the exact unfiltered
priority order `[13, 14, 15, 16, 5, 4, 1, 0]`: it attempts every failing
candidate in order, commits to the first candidate that opens (`find?`),
and probes nothing after the committed one; with no filtering by the
available-device count. -/
theorem c2_amended (opens : Nat → Bool) :
    probedIndices opens =
      mic_indices_to_try.takeWhile (fun i => !opens i) ++
        (mic_indices_to_try.find? opens).toList ∧
    committedMic opens = mic_indices_to_try.find? opens := by
  unfold probedIndices committedMic
  rw [probeCandidates_eq]
  exact ⟨rfl, rfl⟩

/-! ## Claim C7 -/

lemma simulationLoop_spec (cbOks : List Bool) (recognitions : Nat)
    (hok : ∀ b ∈ cbOks, b = true) :
    simulationLoop cbOks recognitions =
      (List.range (min cbOks.length (max_recognitions - recognitions))).map
        (fun k => phraseAt (recognitions + k)) := by
  induction cbOks generalizing recognitions with
  | nil => simp [simulationLoop]
  | cons cbOk rest ih =>
    have hhd : cbOk = true := hok cbOk (by simp)
    have hrest : ∀ b ∈ rest, b = true := fun b hb => hok b (by simp [hb])
    subst hhd
    by_cases h : recognitions < max_recognitions
    · have hm : min (rest.length + 1) (max_recognitions - recognitions) =
          min rest.length (max_recognitions - (recognitions + 1)) + 1 := by
        unfold max_recognitions at h ⊢
        omega
      have hfun : ((fun k => phraseAt (recognitions + k)) ∘ Nat.succ) =
          (fun k => phraseAt (recognitions + 1 + k)) := by
        funext k
        have hk : recognitions + 1 + k = recognitions + k.succ := by omega
        simp [Function.comp, hk]
      simp only [simulationLoop, if_pos h, if_true, ih _ hrest,
        List.length_cons, hm, List.range_succ_eq_map, List.map_cons,
        List.map_map, hfun, Nat.add_zero]
    · have hm : min (rest.length + 1) (max_recognitions - recognitions) = 0 := by
        unfold max_recognitions at h ⊢
        omega
      simp [simulationLoop, if_neg h, hm]

/-- Counterexample to claim C7: the queue push precedes the callback, and
a raising callback lands in the except branch with `recognitions`
unincremented.  With the first callback invocation raising and the next
five succeeding, the loop performs 6 queue pushes — "Help me" is pushed
twice — so the emission count is not unconditionally 5. -/
theorem c7_counterexample :
    simulationLoop [false, true, true, true, true, true] 0 =
      ["Help me", "Help me", "What was that noise", "Turn on the lights",
       "Call for help", "Help me"] ∧
    (simulationLoop [false, true, true, true, true, true] 0).length = 6 :=
  ⟨rfl, rfl⟩

/-- Claim C7 (amended): provided every callback invocation returns
normally, the simulation path emits exactly `max_recognitions = 5`
phrases, one per sleep interval, cycling through the 4-element sample list
(the 5th emission wraps back to "Help me"), and after the 5th phrase emits
nothing more (the trace is unchanged however many further intervals
elapse); a raising callback instead leaves the recognition count
unincremented and the same phrase is pushed again on the next interval. -/
theorem c7_amended (cbOks : List Bool) (hok : ∀ b ∈ cbOks, b = true)
    (h5 : 5 ≤ cbOks.length) :
    simulationLoop cbOks 0 =
      ["Help me", "What was that noise", "Turn on the lights",
       "Call for help", "Help me"] ∧
    (simulationLoop cbOks 0).length = 5 := by
  have hmin : min cbOks.length (max_recognitions - 0) = 5 := by
    unfold max_recognitions
    omega
  rw [simulationLoop_spec cbOks 0 hok, hmin]
  constructor
  · rfl
  · simp

/-- Witness for C7 (amended) over 9 intervals of succeeding callbacks. -/
theorem c7_witness :
    (∀ b ∈ List.replicate 9 true, b = true) ∧ 5 ≤ (List.replicate 9 true).length ∧
      (simulationLoop (List.replicate 9 true) 0 =
        ["Help me", "What was that noise", "Turn on the lights",
         "Call for help", "Help me"] ∧
       (simulationLoop (List.replicate 9 true) 0).length = 5) :=
  ⟨by decide, by decide, c7_amended (List.replicate 9 true) (by decide) (by decide)⟩

/-! ## Claim C9 -/

/-- Claim C9: with the simulation flag unset and the recognition library
unavailable (or speech disabled in preferences), `start()` returns without
spawning any thread but leaves `running = true`; every further `start()`
on that state is the already-running no-op, and only `stop()` clears the
flag. -/
theorem c9_disabled_start_latch (srAvail enabled adjustOk adjustOk2 : Bool)
    (h : srAvail = false ∨ enabled = false) :
    (((SpeechToText.init srAvail enabled false).start adjustOk).running
        = true) ∧
    (((SpeechToText.init srAvail enabled false).start adjustOk).listen_thread
        = none) ∧
    (((SpeechToText.init srAvail enabled false).start adjustOk).start adjustOk2
        = (SpeechToText.init srAvail enabled false).start adjustOk) ∧
    ((((SpeechToText.init srAvail enabled false).start adjustOk).stop).running
        = false) := by
  rcases h with h | h
  · subst h
    cases enabled <;>
      simp [SpeechToText.init, SpeechToText.start, SpeechToText.stop]
  · subst h
    cases srAvail <;>
      simp [SpeechToText.init, SpeechToText.start, SpeechToText.stop]

/-- Witness for C9: library unavailable, speech enabled. -/
theorem c9_witness :
    (false = false ∨ true = false) ∧
    ((((SpeechToText.init false true false).start true).running = true) ∧
     (((SpeechToText.init false true false).start true).listen_thread
        = none) ∧
     (((SpeechToText.init false true false).start true).start false
        = (SpeechToText.init false true false).start true) ∧
     ((((SpeechToText.init false true false).start true).stop).running
        = false)) :=
  ⟨Or.inl rfl, c9_disabled_start_latch false true true false (Or.inl rfl)⟩

/-! ## Claims C3 and C4 -/

lemma runStart_eq (raises : Worker → Bool) (l : List Worker) :
    runStart raises l = (l.takeWhile (fun w => !raises w), l.any raises) := by
  induction l with
  | nil => rfl
  | cons w rest ih =>
    by_cases h : raises w
    · simp [runStart, h, List.takeWhile_cons]
    · simp [runStart, h, List.takeWhile_cons, ih]

lemma runStop_eq (raises : Worker → Bool) (l : List Worker) :
    runStop raises l = (l.takeWhile (fun w => !raises w), l.any raises) := by
  induction l with
  | nil => rfl
  | cons w rest ih =>
    by_cases h : raises w
    · simp [runStop, h, List.takeWhile_cons]
    · simp [runStop, h, List.takeWhile_cons, ih]

/-- Counterexample to claim C3: all worker starts live in one try block.
When the wearable's `start()` raises (and speech-to-text was constructed),
speech-to-text — later in the start order — is never started, contradicting
"every other worker is still started". -/
theorem c3_counterexample :
    (fun w => decide (w = Worker.wearable)) Worker.wearable = true ∧
    Worker.speech ∈ startOrder ⟨true, true, true⟩ ∧
    ¬ Worker.speech ∈
        (runStart (fun w => decide (w = Worker.wearable))
          (startOrder ⟨true, true, true⟩)).1 := by
  decide

/-- Claim C3 (amended): `SenseBridge.start` wraps the whole start sequence
in a single try block, so the workers started are exactly those strictly
before the first one whose `start()` raises; the raising worker and every
later worker are not started, and the except branch (log plus `stop()`)
runs precisely when some worker raised. -/
theorem c3_amended (p : Present) (raises : Worker → Bool) :
    (runStart raises (startOrder p)).1 =
      (startOrder p).takeWhile (fun w => !raises w) ∧
    (runStart raises (startOrder p)).2 = (startOrder p).any raises := by
  rw [runStart_eq]
  exact ⟨rfl, rfl⟩

/-- Counterexample to claim C4 (the wrapping half): the stop calls in
`SenseBridge.stop` are not individually wrapped.  When the simulator's
`stop()` raises, the wearable — later in the stop order — is never
stopped. -/
theorem c4_counterexample :
    Worker.wearable ∈ stopOrder ⟨true, true, true⟩ ∧
    ¬ Worker.wearable ∈
        (runStop (fun w => decide (w = Worker.simulator))
          (stopOrder ⟨true, true, true⟩)).1 := by
  decide

/-- Claim C4 (amended): `stop()` does stop the workers in exactly the
reverse of the start order, but the individual stop calls are not wrapped:
an exception from one worker's `stop()` propagates and the remaining
workers (those after the first raising one) are not stopped. -/
theorem c4_amended (p : Present) (raises : Worker → Bool) :
    stopOrder p = (startOrder p).reverse ∧
    (runStop raises (stopOrder p)).1 =
      (stopOrder p).takeWhile (fun w => !raises w) := by
  constructor
  · rcases p with ⟨a, b, c⟩
    cases a <;> cases b <;> cases c <;> rfl
  · rw [runStop_eq]

/-! ## Claim C6 -/

lemma wearable_stop_not_running (d : WearableDevice)
    (h : d.running = false) : d.stop = d := by
  simp [WearableDevice.stop, h]

lemma wearable_stop_stop (d : WearableDevice) : d.stop.stop = d.stop := by
  by_cases h : d.running = true
  · have hr : d.stop.running = false := by
      unfold WearableDevice.stop
      split
      · simp_all
      · split <;> rfl
    exact wearable_stop_not_running _ hr
  · have h0 : d.running = false := by simpa using h
    rw [wearable_stop_not_running d h0, wearable_stop_not_running d h0]

lemma wearable_stop_socketsClosed (d : WearableDevice) :
    d.stop.socketsClosed ≤ d.socketsClosed + 1 := by
  unfold WearableDevice.stop
  split
  · omega
  · split
    · show d.socketsClosed + 1 ≤ d.socketsClosed + 1
      omega
    · show d.socketsClosed ≤ d.socketsClosed + 1
      omega

lemma speech_stop_not_running (s : SpeechToText)
    (h : s.running = false) : s.stop = s := by
  simp [SpeechToText.stop, h]

lemma speech_stop_stop (s : SpeechToText) : s.stop.stop = s.stop := by
  by_cases h : s.running = true
  · have hr : s.stop.running = false := by
      unfold SpeechToText.stop
      split
      · simp_all
      · split <;> rfl
    exact speech_stop_not_running _ hr
  · have h0 : s.running = false := by simpa using h
    rw [speech_stop_not_running s h0, speech_stop_not_running s h0]

lemma speech_stop_micCloses (s : SpeechToText) :
    s.stop.micCloses ≤ s.micCloses + 1 := by
  unfold SpeechToText.stop
  split
  · omega
  · split
    · show s.micCloses + 1 ≤ s.micCloses + 1
      omega
    · show s.micCloses ≤ s.micCloses + 1
      omega

lemma simulator_stop_not_running (u : SimulatorUI)
    (h : u.running = false) : u.stop = u := by
  simp [SimulatorUI.stop, h]

lemma simulator_stop_stop (u : SimulatorUI) : u.stop.stop = u.stop := by
  by_cases h : u.running = true
  · have hr : u.stop.running = false := by
      unfold SimulatorUI.stop
      split
      · simp_all
      · split <;> rfl
    exact simulator_stop_not_running _ hr
  · have h0 : u.running = false := by simpa using h
    rw [simulator_stop_not_running u h0, simulator_stop_not_running u h0]

lemma simulator_stop_quits (u : SimulatorUI) :
    u.stop.quits ≤ u.quits + 1 := by
  unfold SimulatorUI.stop
  split
  · omega
  · split
    · show u.quits + 1 ≤ u.quits + 1
      omega
    · show u.quits ≤ u.quits + 1
      omega

lemma guarded_stop_stop (g : GuardedWorker) : g.stop.stop = g.stop := by
  by_cases h : g.running <;> simp [GuardedWorker.stop, h]

lemma guarded_stop_releases (g : GuardedWorker) :
    g.stop.releases ≤ g.releases + 1 := by
  by_cases h : g.running <;> simp [GuardedWorker.stop, h]

lemma optionStop_idem {α : Type} (f : α → α) (hf : ∀ x, f (f x) = f x)
    (o : Option α) : (o.map f).map f = o.map f := by
  cases o with
  | none => rfl
  | some x => simp [hf]

lemma optionCount_le {α : Type} (f : α → α) (g : α → Nat)
    (hf : ∀ x, g (f x) ≤ g x + 1) (o : Option α) :
    ((o.map f).map g).getD 0 ≤ (o.map g).getD 0 + 1 := by
  cases o with
  | none => simp
  | some x => simpa using hf x

/-- Claim C6: `SenseBridge.stop()` is idempotent.  A second call produces
the same state (each component's `stop`/`cleanup` is guarded by its
`running` flag, so it returns at once), raises no error (the transition is
total), and each component's resources are released at most once across
the two calls: one call bumps each release counter (socket close, mic
close, root quit, spec-modelled releases) by at most one, and the second
call changes nothing. -/
theorem c6_stop_idempotent (s : SenseBridgeState) :
    s.stop.stop = s.stop ∧
    s.stop.wearable.socketsClosed ≤ s.wearable.socketsClosed + 1 ∧
    s.stop.notification_manager.releases ≤
      s.notification_manager.releases + 1 ∧
    s.stop.device_controller.releases ≤ s.device_controller.releases + 1 ∧
    (s.stop.speech_to_text.map SpeechToText.micCloses).getD 0 ≤
      (s.speech_to_text.map SpeechToText.micCloses).getD 0 + 1 ∧
    (s.stop.simulator.map SimulatorUI.quits).getD 0 ≤
      (s.simulator.map SimulatorUI.quits).getD 0 + 1 := by
  refine ⟨?_, ?_, ?_, ?_, ?_, ?_⟩
  · simp [SenseBridgeState.stop, wearable_stop_stop,
      guarded_stop_stop,
      optionStop_idem SpeechToText.stop speech_stop_stop,
      optionStop_idem GuardedWorker.stop guarded_stop_stop,
      optionStop_idem SimulatorUI.stop simulator_stop_stop]
  · exact wearable_stop_socketsClosed s.wearable
  · exact guarded_stop_releases s.notification_manager
  · exact guarded_stop_releases s.device_controller
  · exact optionCount_le SpeechToText.stop SpeechToText.micCloses
      speech_stop_micCloses s.speech_to_text
  · exact optionCount_le SimulatorUI.stop SimulatorUI.quits
      simulator_stop_quits s.simulator

/-! ## Claim C8 -/

/-- An environment where `/proc/device-tree/model` exists but reading it
raises (e.g. a permission error): the unguarded `open` in
`_detect_raspberry_pi` propagates the exception out of the constructor. -/
def envModelReadFails : Env :=
  { platformName := "Linux"
    model_file_exists := true
    model_file_read := Except.error ()
    rpi_issue_exists := false
    rpi_gpio_import := ImportResult.importError
    mock_gpio_find_spec := Except.ok true
    pyaudio_probe := Except.ok 0
    bluetooth_import := ImportResult.importError
    display_env := ""
    fb0_exists := false }

/-- Counterexample to claim C8: constructing the detector does not
complete normally in every environment — a failing read of the Raspberry
Pi model file escapes `HardwareDetector.__init__`. -/
theorem c8_counterexample :
    HardwareDetector.detect envModelReadFails = Except.error () := rfl

/-- Claim C8 (amended): construction completes normally, with probe
failures only degrading the corresponding flag to false, provided the
model-file read does not raise when the file exists and the GPIO and
Bluetooth import probes fail only with `ImportError` (the only exception
their handlers catch); under those provisos a failing pyaudio probe gives
`has_audio = false`, a GPIO `ImportError` gives `has_gpio = false`, and a
Bluetooth `ImportError` gives `has_bluetooth = false`. -/
theorem c8_amended (e : Env)
    (hm : e.model_file_exists = true → ∃ s, e.model_file_read = Except.ok s)
    (hg : e.rpi_gpio_import ≠ ImportResult.otherError)
    (hb : e.bluetooth_import ≠ ImportResult.otherError) :
    ∃ d : HardwareDetector, HardwareDetector.detect e = Except.ok d ∧
      (e.rpi_gpio_import = ImportResult.importError → d.has_gpio = false) ∧
      (∀ u, e.pyaudio_probe = Except.error u → d.has_audio = false) ∧
      (e.bluetooth_import = ImportResult.importError →
        d.has_bluetooth = false) := by
  have hrpi : ∃ b, detect_raspberry_pi e = Except.ok b := by
    by_cases hx : e.model_file_exists = true
    · obtain ⟨s, hs⟩ := hm hx
      by_cases h2 : containsSub s "Raspberry Pi" = true
      · exact ⟨true, by simp [detect_raspberry_pi, hx, hs, h2]⟩
      · by_cases h3 : e.rpi_issue_exists = true
        · exact ⟨true, by simp [detect_raspberry_pi, hx, hs, h2, h3]⟩
        · exact ⟨false, by simp [detect_raspberry_pi, hx, hs, h2, h3]⟩
    · by_cases h3 : e.rpi_issue_exists = true
      · exact ⟨true, by simp [detect_raspberry_pi, hx, h3]⟩
      · exact ⟨false, by simp [detect_raspberry_pi, hx, h3]⟩
  have hgpio : ∃ b, check_gpio e = Except.ok b ∧
      (e.rpi_gpio_import = ImportResult.importError → b = false) := by
    cases hgi : e.rpi_gpio_import with
    | ok =>
        refine ⟨true, by simp [check_gpio, hgi], ?_⟩
        intro h
        exact absurd h (by decide)
    | importError =>
        refine ⟨false, ?_, fun _ => rfl⟩
        cases hms : e.mock_gpio_find_spec with
        | ok v => simp [check_gpio, hgi, hms]
        | error u => simp [check_gpio, hgi, hms]
    | otherError => exact absurd hgi hg
  have hblue : ∃ b, check_bluetooth e = Except.ok b ∧
      (e.bluetooth_import = ImportResult.importError → b = false) := by
    cases hbi : e.bluetooth_import with
    | ok =>
        refine ⟨true, by simp [check_bluetooth, hbi], ?_⟩
        intro h
        exact absurd h (by decide)
    | importError => exact ⟨false, by simp [check_bluetooth, hbi], fun _ => rfl⟩
    | otherError => exact absurd hbi hb
  obtain ⟨rb, hrb⟩ := hrpi
  obtain ⟨gb, hgb, hgb2⟩ := hgpio
  obtain ⟨bb, hbb, hbb2⟩ := hblue
  refine ⟨{ platformName := e.platformName
            is_raspberry_pi := rb
            has_gpio := gb
            has_audio := check_audio e
            has_bluetooth := bb
            has_display := check_display rb e }, ?_, ?_, ?_, ?_⟩
  · simp [HardwareDetector.detect, hrb, hgb, hbb, bind, Except.bind,
      pure, Except.pure]
  · intro h
    exact hgb2 h
  · intro u hu
    simp [check_audio, hu]
  · intro h
    exact hbb2 h

/-- An environment where every optional probe fails benignly, used to
instantiate `c8_amended`. -/
def envAllProbesFail : Env :=
  { platformName := "Linux"
    model_file_exists := false
    model_file_read := Except.error ()
    rpi_issue_exists := false
    rpi_gpio_import := ImportResult.importError
    mock_gpio_find_spec := Except.error ()
    pyaudio_probe := Except.error ()
    bluetooth_import := ImportResult.importError
    display_env := ""
    fb0_exists := false }

/-- Witness for C8 (amended) at a concrete all-probes-fail environment. -/
theorem c8_witness :
    ∃ d : HardwareDetector,
      HardwareDetector.detect envAllProbesFail = Except.ok d ∧
      (envAllProbesFail.rpi_gpio_import = ImportResult.importError →
        d.has_gpio = false) ∧
      (∀ u, envAllProbesFail.pyaudio_probe = Except.error u →
        d.has_audio = false) ∧
      (envAllProbesFail.bluetooth_import = ImportResult.importError →
        d.has_bluetooth = false) :=
  c8_amended envAllProbesFail
    (fun h => absurd h (by decide))
    (by decide)
    (by decide)

end SenseBridge
